import Mathlib

/-
Verification of the safelease multi-agent deposit-refund demo
(damage_verifier.py, payment_processor.py, client.py, run_system.py).
Monetary amounts (Python floats) are modelled as exact rationals;
the pseudo-random draw in the payment processor is modelled as an
explicit natural-number parameter ranging over the values
`random.randint(100000, 999999)` can return.
-/

namespace SafeLease

/-- Message model `DamageRequest` from damage_verifier.py. -/
structure DamageRequest where
  before_image : String
  after_image : String
  claim_amount : ℚ
  policy_id : String
deriving DecidableEq, Repr

/-- Message model `DamageResponse` from damage_verifier.py. -/
structure DamageResponse where
  decision : String
  approved_amount : ℚ
  deduction : ℚ
  policy_id : String
deriving DecidableEq, Repr

/-- Handler `verify_damage` from damage_verifier.py: if the two image
strings are equal, full payout; otherwise deduct 20% of the claim. -/
def verify_damage (msg : DamageRequest) : DamageResponse :=
  if msg.before_image = msg.after_image then
    { decision := "full_payout"
      approved_amount := msg.claim_amount
      deduction := 0
      policy_id := msg.policy_id }
  else
    let deduction := msg.claim_amount * (2/10)
    { decision := "deduct_payout"
      approved_amount := msg.claim_amount - deduction
      deduction := deduction
      policy_id := msg.policy_id }

/-- Message model `PaymentRequest` from payment_processor.py. -/
structure PaymentRequest where
  decision : String
  approved_amount : ℚ
  policy_id : String
deriving DecidableEq, Repr

/-- Message model `PaymentResponse` from payment_processor.py. -/
structure PaymentResponse where
  policy_id : String
  decision : String
  paid_amount : ℚ
  transaction_id : String
  status : String
deriving DecidableEq, Repr

/-- Handler `process_payment` from payment_processor.py. The parameter
`r` is the value returned by `random.randint(100000, 999999)` for this
call; the transaction id is the string `TXN_` followed by that number. -/
def process_payment (r : ℕ) (msg : PaymentRequest) : PaymentResponse :=
  let txn_id := "TXN_" ++ toString r
  let pair : ℚ × String :=
    if msg.decision = "full_payout" then (msg.approved_amount, "completed")
    else if msg.decision = "deduct_payout" then (msg.approved_amount, "completed")
    else if msg.decision = "error" then (0, "failed")
    else (0, "rejected")
  { policy_id := msg.policy_id
    decision := msg.decision
    paid_amount := pair.1
    transaction_id := txn_id
    status := pair.2 }

/-- Handler `handle_damage_response` from client.py: forwards decision,
approved amount and policy id of a damage response as a payment request. -/
def handle_damage_response (msg : DamageResponse) : PaymentRequest :=
  { decision := msg.decision
    approved_amount := msg.approved_amount
    policy_id := msg.policy_id }

/-- The hardcoded demo damage request built by `initiate_deposit_refund`
in client.py. -/
def demoDamageRequest : DamageRequest :=
  { before_image := "https://example.com/before.jpg"
    after_image := "https://example.com/after.jpg"
    claim_amount := 1000
    policy_id := "POL-12345" }

/-- The orchestrator workflow states named by the specification. -/
inductive WorkflowState where
  | Idle
  | AwaitingDamage
  | AwaitingPayment
  | Done
deriving DecidableEq, Repr

/-- Interval handler `initiate_deposit_refund` from client.py. The handler
body contains no guard of any kind: on every tick it sends the hardcoded
demo request, whatever state the workflow is in. The state argument records
the workflow state at the moment the timer fires; the body ignores it,
exactly as the source consults no state before sending. -/
def initiate_deposit_refund (_s : WorkflowState) : Option DamageRequest :=
  some demoDamageRequest

/-- A process environment: maps a variable name to its value, if set. -/
def Env : Type := String → Option String

/-- `check_env_vars` from run_system.py: the single required variable is
AGENT_SEED; Python `not os.getenv(var)` treats both an unset and an empty
variable as missing. Returns true when nothing is missing. -/
def check_env_vars (env : Env) : Bool :=
  match env "AGENT_SEED" with
  | none => false
  | some s => !(s = "")

/-- The identity-relevant part of a uAgents `Agent(...)` construction:
its name and the seed it is constructed with. -/
structure AgentConfig where
  name : String
  seed : String
deriving DecidableEq, Repr

/-- The damage agent as constructed in damage_verifier.py: the seed is the
hardcoded literal passed to `Agent(...)`; the environment is not read. -/
def damage_agent (_env : Env) : AgentConfig :=
  { name := "DamageVerifier", seed := "damage_verifier_seed_12345_unique" }

/-- The payment agent as constructed in payment_processor.py: the seed is
the hardcoded literal passed to `Agent(...)`; the environment is not read. -/
def payment_agent (_env : Env) : AgentConfig :=
  { name := "PaymentProcessor", seed := "payment_processor_seed_67890_unique" }

/-- `main` from run_system.py, reduced to which agents it launches: when
`check_env_vars` fails it exits via sys.exit(1) before any `run_agent`
call, launching nothing; otherwise it launches the two backend agents. -/
def main_launched_agents (env : Env) : List String :=
  if check_env_vars env then ["DamageVerifier", "PaymentProcessor"] else []

/-- A concrete environment in which AGENT_SEED is set to the given value
and every other variable is unset. -/
def envWithSeed (v : String) : Env :=
  fun k => if k = "AGENT_SEED" then some v else none

end SafeLease

namespace SafeLease

/-- C1: equal images give a full payout with zero deduction. -/
theorem verify_damage_equal_images (req : DamageRequest)
    (h : req.before_image = req.after_image) :
    (verify_damage req).decision = "full_payout" ∧
    (verify_damage req).deduction = 0 ∧
    (verify_damage req).approved_amount = req.claim_amount := by
  simp [verify_damage, h]

/-- Witness for C1 at a concrete request with identical images. -/
theorem verify_damage_equal_images_witness :
    ("img" : String) = "img" ∧
    (verify_damage ⟨"img", "img", 1000, "POL-12345"⟩).decision = "full_payout" ∧
    (verify_damage ⟨"img", "img", 1000, "POL-12345"⟩).deduction = 0 ∧
    (verify_damage ⟨"img", "img", 1000, "POL-12345"⟩).approved_amount = 1000 :=
  ⟨rfl, verify_damage_equal_images ⟨"img", "img", 1000, "POL-12345"⟩ rfl⟩

/-- C2: distinct images give a 20% deduction and the remainder approved. -/
theorem verify_damage_distinct_images (req : DamageRequest)
    (h : req.before_image ≠ req.after_image) :
    (verify_damage req).decision = "deduct_payout" ∧
    (verify_damage req).deduction = req.claim_amount * (2/10) ∧
    (verify_damage req).approved_amount
      = req.claim_amount - (verify_damage req).deduction := by
  simp [verify_damage, h]

/-- Witness for C2 at a concrete request with distinct images. -/
theorem verify_damage_distinct_images_witness :
    ("a" : String) ≠ "b" ∧
    (verify_damage ⟨"a", "b", 1000, "POL-12345"⟩).decision = "deduct_payout" ∧
    (verify_damage ⟨"a", "b", 1000, "POL-12345"⟩).deduction = 1000 * (2/10) ∧
    (verify_damage ⟨"a", "b", 1000, "POL-12345"⟩).approved_amount
      = 1000 - (verify_damage ⟨"a", "b", 1000, "POL-12345"⟩).deduction :=
  ⟨by decide, verify_damage_distinct_images ⟨"a", "b", 1000, "POL-12345"⟩ (by decide)⟩

/-- C3: for every request, approved amount plus deduction equals the
claim amount. -/
theorem verify_damage_conservation (req : DamageRequest) :
    (verify_damage req).approved_amount + (verify_damage req).deduction
      = req.claim_amount := by
  unfold verify_damage
  split <;> simp

/-- C4: the payment handler dispatches exhaustively on the decision
string: full_payout and deduct_payout pay the approved amount with status
completed, error pays 0 with status failed, anything else pays 0 with
status rejected. -/
theorem process_payment_dispatch (r : ℕ) (msg : PaymentRequest) :
    ((msg.decision = "full_payout" ∨ msg.decision = "deduct_payout") →
      (process_payment r msg).paid_amount = msg.approved_amount ∧
      (process_payment r msg).status = "completed") ∧
    (msg.decision = "error" →
      (process_payment r msg).paid_amount = 0 ∧
      (process_payment r msg).status = "failed") ∧
    (msg.decision ≠ "full_payout" → msg.decision ≠ "deduct_payout" →
      msg.decision ≠ "error" →
      (process_payment r msg).paid_amount = 0 ∧
      (process_payment r msg).status = "rejected") := by
  rcases msg with ⟨d, a, p⟩
  unfold process_payment
  by_cases h1 : d = "full_payout" <;> by_cases h2 : d = "deduct_payout" <;>
    by_cases h3 : d = "error" <;> simp_all

/-- Witness for C4: one concrete request in each branch of the dispatch. -/
theorem process_payment_dispatch_witness :
    (process_payment 123456 ⟨"full_payout", 100, "P"⟩).paid_amount = 100 ∧
    (process_payment 123456 ⟨"full_payout", 100, "P"⟩).status = "completed" ∧
    (process_payment 123456 ⟨"error", 100, "P"⟩).paid_amount = 0 ∧
    (process_payment 123456 ⟨"error", 100, "P"⟩).status = "failed" ∧
    (process_payment 123456 ⟨"maybe", 100, "P"⟩).paid_amount = 0 ∧
    (process_payment 123456 ⟨"maybe", 100, "P"⟩).status = "rejected" := by
  have hfull := (process_payment_dispatch 123456 ⟨"full_payout", 100, "P"⟩).1 (Or.inl rfl)
  have herr := (process_payment_dispatch 123456 ⟨"error", 100, "P"⟩).2.1 rfl
  have hother := (process_payment_dispatch 123456 ⟨"maybe", 100, "P"⟩).2.2
    (by decide) (by decide) (by decide)
  exact ⟨hfull.1, hfull.2, herr.1, herr.2, hother.1, hother.2⟩

/-- C5: for any value the random generator may return, the transaction id
is the fixed prefix TXN_ followed by that integer, which is a 6-digit
number in the range 100000 to 999999 inclusive. -/
theorem process_payment_transaction_id (r : ℕ) (msg : PaymentRequest)
    (hlo : 100000 ≤ r) (hhi : r ≤ 999999) :
    (process_payment r msg).transaction_id = "TXN_" ++ toString r ∧
    (Nat.digits 10 r).length = 6 ∧ 100000 ≤ r ∧ r ≤ 999999 := by
  refine ⟨rfl, ?_, hlo, hhi⟩
  have hne : r ≠ 0 := by omega
  rw [Nat.digits_len 10 r (by norm_num) hne]
  have h5 : (10 : ℕ) ^ 5 ≤ r := by calc (10:ℕ) ^ 5 = 100000 := by norm_num
                                       _ ≤ r := hlo
  have h6 : r < (10 : ℕ) ^ 6 := by calc r ≤ 999999 := hhi
                                       _ < (10:ℕ) ^ 6 := by norm_num
  have := Nat.log_eq_of_pow_le_of_lt_pow h5 h6
  omega

/-- Witness for C5 at the concrete draw 123456. -/
theorem process_payment_transaction_id_witness :
    100000 ≤ 123456 ∧ 123456 ≤ 999999 ∧
    (process_payment 123456 ⟨"deduct_payout", 800, "POL-12345"⟩).transaction_id
      = "TXN_" ++ toString 123456 ∧
    (Nat.digits 10 123456).length = 6 := by
  have h := process_payment_transaction_id 123456
    ⟨"deduct_payout", 800, "POL-12345"⟩ (by norm_num) (by norm_num)
  exact ⟨by norm_num, by norm_num, h.1, h.2.1⟩

/-- C6: policy_id is preserved across every message hop: the damage
response carries the request's policy_id, the payment request built by
the client carries the damage response's policy_id, and the payment
response echoes the payment request's policy_id. -/
theorem policy_id_preserved (req : DamageRequest) (dresp : DamageResponse)
    (preq : PaymentRequest) (r : ℕ) :
    (verify_damage req).policy_id = req.policy_id ∧
    (handle_damage_response dresp).policy_id = dresp.policy_id ∧
    (process_payment r preq).policy_id = preq.policy_id := by
  refine ⟨?_, rfl, rfl⟩
  unfold verify_damage
  split <;> rfl

/-- C7 counterexample: the interval handler fires a damage request even in
state AwaitingDamage, so it is false that a request is sent only when the
state is Idle. -/
theorem initiate_deposit_refund_counterexample :
    initiate_deposit_refund WorkflowState.AwaitingDamage = some demoDamageRequest
      ∧ initiate_deposit_refund WorkflowState.AwaitingDamage ≠ none :=
  ⟨rfl, by simp [initiate_deposit_refund]⟩

/-- C7 (amended): the interval trigger sends the hardcoded demo
DamageRequest on every firing, regardless of the workflow state; the
handler contains no Idle guard. -/
theorem initiate_deposit_refund_unconditional (s : WorkflowState) :
    initiate_deposit_refund s = some demoDamageRequest := rfl

/-- C8 counterexample: with AGENT_SEED set to seed123, neither agent is
constructed with that seed; both seeds are hardcoded literals. -/
theorem agent_seed_counterexample :
    (envWithSeed "seed123") "AGENT_SEED" = some "seed123" ∧
    (damage_agent (envWithSeed "seed123")).seed ≠ "seed123" ∧
    (payment_agent (envWithSeed "seed123")).seed ≠ "seed123" :=
  ⟨rfl, by simp [damage_agent], by simp [payment_agent]⟩

/-- C8 (amended): the supervision script requires AGENT_SEED to be set,
but each service agent is constructed with its own fixed hardcoded seed
literal, independent of the environment; AGENT_SEED does not supply the
agents' seeds. -/
theorem agent_seeds_hardcoded (env : Env) :
    (damage_agent env).seed = "damage_verifier_seed_12345_unique" ∧
    (payment_agent env).seed = "payment_processor_seed_67890_unique" ∧
    (env "AGENT_SEED" = none → check_env_vars env = false) :=
  ⟨rfl, rfl, fun h => by simp [check_env_vars, h]⟩

/-- Witness for C8 (amended) at concrete environments. -/
theorem agent_seeds_hardcoded_witness :
    (damage_agent (envWithSeed "s")).seed = "damage_verifier_seed_12345_unique" ∧
    (payment_agent (envWithSeed "s")).seed = "payment_processor_seed_67890_unique" ∧
    check_env_vars (fun _ => none) = false :=
  ⟨(agent_seeds_hardcoded (envWithSeed "s")).1,
   (agent_seeds_hardcoded (envWithSeed "s")).2.1,
   (agent_seeds_hardcoded (fun _ => none)).2.2 rfl⟩

/-- C9: when AGENT_SEED is unset, the supervision script exits before
launching any service subprocess: no agent is launched. -/
theorem main_no_launch_without_seed (env : Env)
    (h : env "AGENT_SEED" = none) :
    main_launched_agents env = [] := by
  simp [main_launched_agents, check_env_vars, h]

/-- Witness for C9 at the empty environment. -/
theorem main_no_launch_without_seed_witness :
    ((fun _ => none : Env) "AGENT_SEED" = none) ∧
    main_launched_agents (fun _ => none) = [] :=
  ⟨rfl, main_no_launch_without_seed (fun _ => none) rfl⟩

/-- C10: a non-positive claim amount flows through the same two-branch
arithmetic with no validation: with distinct images the deduction is 20%
of the claim and the approved amount the remainder, both non-positive,
and the handler (a total function) produces a response. -/
theorem verify_damage_nonpositive_claim (req : DamageRequest)
    (hc : req.claim_amount ≤ 0) (hne : req.before_image ≠ req.after_image) :
    (verify_damage req).deduction = req.claim_amount * (2/10) ∧
    (verify_damage req).approved_amount
      = req.claim_amount - (verify_damage req).deduction ∧
    (verify_damage req).deduction ≤ 0 ∧
    (verify_damage req).approved_amount ≤ 0 := by
  have h1 : (verify_damage req).deduction = req.claim_amount * (2/10) := by
    simp [verify_damage, hne]
  have h2 : (verify_damage req).approved_amount
      = req.claim_amount - req.claim_amount * (2/10) := by
    simp [verify_damage, hne]
  refine ⟨h1, by rw [h1, h2], by rw [h1]; linarith, by rw [h2]; linarith⟩

/-- Witness for C10 at a concrete negative claim. -/
theorem verify_damage_nonpositive_claim_witness :
    ((-100 : ℚ) ≤ 0) ∧ ("before" : String) ≠ "after" ∧
    (verify_damage ⟨"before", "after", -100, "POL-9"⟩).deduction ≤ 0 ∧
    (verify_damage ⟨"before", "after", -100, "POL-9"⟩).approved_amount ≤ 0 := by
  have h := verify_damage_nonpositive_claim ⟨"before", "after", -100, "POL-9"⟩
    (by norm_num) (by decide)
  exact ⟨by norm_num, by decide, h.2.2.1, h.2.2.2⟩

end SafeLease
